import Mathlib

/-!
A shallow embedding of the `WindguruScraper` module: spot-id extraction from
provider URLs, numeric / cloud-cover / wind-direction cell decoding, forecast
assembly from extracted table rows, and the TTL cache together with the
axios-then-puppeteer fetch orchestration.

Modelling conventions: JavaScript numbers are exact rationals, JS timestamps
(both `Date.now()` and `toISOString()` values) are naturals denoting the
instant, the JS regexes are rendered as explicit left-to-right scanners over
character lists with the same leftmost-match and greedy-capture semantics,
and the two network fetch strategies are oracle outcomes supplied in a
`ScrapeEnv`.  The source file writes the degree mark with a mojibake byte
sequence; we render it uniformly as the character °, which is a bijective
renaming and does not affect any behaviour proved here.
-/

namespace Windguru

unseal Rat.mul Rat.inv Rat.add Rat.sub

/-- One extracted table cell: its trimmed text and its inner HTML (the empty
string models cheerio returning null / an absent html). -/
structure Cell where
  text : String
  html : String
deriving DecidableEq

/-- Strips the expected characters from the front of a list, returning the
remainder on success.  Used to model literal fragments of the JS regexes. -/
def stripPre : List Char → List Char → Option (List Char)
  | [], cs => some cs
  | _ :: _, [] => none
  | p :: ps, c :: cs => if c = p then stripPre ps cs else none

/-- The literal characters of the host-and-slash fragment in the regex of
`extractSpotId`. -/
def windguruKey : List Char :=
  ['w', 'i', 'n', 'd', 'g', 'u', 'r', 'u', '.', 'c', 'z', '/']

/-- Models the JS regex search `url.match(/windguru\.cz\/(\d+)/)`: scan left
to right for the key followed by at least one digit and return the greedy
digit capture of the leftmost match. -/
def scanSpot : List Char → Option (List Char)
  | [] => none
  | c :: cs =>
    match stripPre windguruKey (c :: cs) with
    | some rest =>
      if (rest.takeWhile Char.isDigit).isEmpty then scanSpot cs
      else some (rest.takeWhile Char.isDigit)
    | none => scanSpot cs

/-- `WindguruScraper.extractSpotId`: returns the captured digit group or
throws `Invalid Windguru URL format`. -/
def extractSpotId (url : String) : Except String String :=
  match scanSpot url.toList with
  | some ds => Except.ok (String.mk ds)
  | none => Except.error "Invalid Windguru URL format"

/-- Strips an `http://` or `https://` scheme. -/
def stripHttpScheme (cs : List Char) : Option (List Char) :=
  match stripPre ['h', 't', 't', 'p', 's', ':', '/', '/'] cs with
  | some rest => some rest
  | none => stripPre ['h', 't', 't', 'p', ':', '/', '/'] cs

/-- Strips an optional `www.` fragment. -/
def stripWww (cs : List Char) : List Char :=
  match stripPre ['w', 'w', 'w', '.'] cs with
  | some rest => rest
  | none => cs

/-- Modelled from the spec: the provider URL pattern
`https?://(www.)?<provider-domain>/<digits>/?`, anchored at both ends, with
the numeric segment as the capture.  This definition exists only to compare
the spec's URL contract with the code's `extractSpotId`. -/
def specUrlMatch (url : String) : Option String :=
  match stripHttpScheme url.toList with
  | none => none
  | some afterScheme =>
    match stripPre windguruKey (stripWww afterScheme) with
    | none => none
    | some body =>
      if (body.takeWhile Char.isDigit).isEmpty then none
      else
        match body.dropWhile Char.isDigit with
        | [] => some (String.mk (body.takeWhile Char.isDigit))
        | ['/'] => some (String.mk (body.takeWhile Char.isDigit))
        | _ => none

/-- Decidable form of "the string contains `windguru.cz/` immediately
followed by a digit somewhere", the exact success condition of the unanchored
regex in `extractSpotId`. -/
def hasSpotKey : List Char → Bool
  | [] => false
  | c :: cs =>
    (match stripPre windguruKey (c :: cs) with
     | some (d :: _) => d.isDigit
     | some [] => false
     | none => false) || hasSpotKey cs

/-- JS `Math.round`: half-integers round toward positive infinity. -/
def jsRound (q : ℚ) : ℤ := ⌊q + 1 / 2⌋

/-- JS number truncation toward zero, used by the JS `%` operator. -/
def jsTrunc (q : ℚ) : ℤ := if q < 0 then ⌈q⌉ else ⌊q⌋

/-- The JS `%` remainder operator: `a - b * trunc(a / b)`; its sign follows
the dividend, so it is negative for negative dividends. -/
def jsRem (a b : ℚ) : ℚ := a - b * jsTrunc (a / b)

/-- Numeric value of a digit-character list, as read by `parseInt` /
`parseFloat` on a `\d+` capture. -/
def digitsToNat (ds : List Char) : Nat :=
  ds.foldl (fun n c => 10 * n + (c.toNat - 48)) 0

/-- Drops characters up to the first digit; models the regex engine advancing
the start position until `\d` can match. -/
def findFirstDigit : List Char → Option (List Char)
  | [] => none
  | c :: cs => if c.isDigit then some (c :: cs) else findFirstDigit cs

/-- Greedy parse of `\d+(\.\d+)?` starting at a digit, as `parseFloat` reads
the capture; returns the value and the unconsumed remainder. -/
def parseDecimal (cs : List Char) : ℚ × List Char :=
  match cs.dropWhile Char.isDigit with
  | '.' :: rest2 =>
    if (rest2.takeWhile Char.isDigit).isEmpty then
      ((digitsToNat (cs.takeWhile Char.isDigit) : ℚ), cs.dropWhile Char.isDigit)
    else ((digitsToNat (cs.takeWhile Char.isDigit) : ℚ) +
      (digitsToNat (rest2.takeWhile Char.isDigit) : ℚ) /
        (10 : ℚ) ^ (rest2.takeWhile Char.isDigit).length,
      rest2.dropWhile Char.isDigit)
  | _ => ((digitsToNat (cs.takeWhile Char.isDigit) : ℚ), cs.dropWhile Char.isDigit)

/-- JS `String.prototype.trim`. -/
def jsTrim (s : String) : String :=
  String.mk (((s.toList.dropWhile Char.isWhitespace).reverse.dropWhile
    Char.isWhitespace).reverse)

/-- The optional `\s*-\s*(\d+(?:\.\d+)?)` range tail of the numeric regex:
yields the second number when present, otherwise the first again (JS:
`const max = matches[2] ? parseFloat(matches[2]) : min`). -/
def rangeMax (minV : ℚ) (rest : List Char) : ℚ :=
  match rest.dropWhile Char.isWhitespace with
  | '-' :: rest2 =>
    match rest2.dropWhile Char.isWhitespace with
    | c :: cs => if c.isDigit then (parseDecimal (c :: cs)).1 else minV
    | [] => minV
  | _ => minV

/-- `WindguruScraper.parseNumericValue`: trims, finds the leftmost match of
`(\d+(?:\.\d+)?)(?:\s*-\s*(\d+(?:\.\d+)?))?`, and returns the midpoint of the
range rounded to one decimal (`Math.round((min + max) / 2 * 10) / 10`);
`null` for empty or digit-free text. -/
def parseNumericValue (text : String) : Option ℚ :=
  if jsTrim text = "" then none
  else
    match findFirstDigit (jsTrim text).toList with
    | none => none
    | some cs =>
      some ((jsRound (((parseDecimal cs).1 +
        rangeMax (parseDecimal cs).1 (parseDecimal cs).2) / 2 * 10) : ℚ) / 10)

/-- The cloud-cover record built by `parseCloudCover`. -/
structure CloudCover where
  low : Option ℚ
  mid : Option ℚ
  high : Option ℚ
  total : ℚ
deriving DecidableEq

/-- `WindguruScraper.parseCloudCover`: three independent numeric decodes
(an absent cell text decodes to null); null if all three are null, otherwise
`total = Math.max(low || 0, mid || 0, high || 0)`. -/
def parseCloudCover (lowText midText highText : Option String) : Option CloudCover :=
  if lowText.bind parseNumericValue = none ∧ midText.bind parseNumericValue = none ∧
      highText.bind parseNumericValue = none then none
  else some { low := lowText.bind parseNumericValue
              mid := midText.bind parseNumericValue
              high := highText.bind parseNumericValue
              total := max ((lowText.bind parseNumericValue).getD 0)
                (max ((midText.bind parseNumericValue).getD 0)
                  ((highText.bind parseNumericValue).getD 0)) }

/-- Character class `[NESW]` with the `i` flag. -/
def isCompassChar (c : Char) : Bool :=
  c == 'N' || c == 'E' || c == 'S' || c == 'W' ||
    c == 'n' || c == 'e' || c == 's' || c == 'w'

/-- The anchored regex `^([NESW]{1,3})$/i` on the trimmed cell text. -/
def compassMatch (t : String) : Option String :=
  if 1 ≤ t.toList.length ∧ t.toList.length ≤ 3 ∧ t.toList.all isCompassChar then some t
  else none

/-- JS `String.prototype.toUpperCase` (ASCII fragment). -/
def jsToUpper (s : String) : String :=
  String.mk (s.toList.map Char.toUpper)

/-- The regex `(\d+)°?` on cell text: first digit run, read by `parseInt`. -/
def degreeTextMatch (t : String) : Option Nat :=
  match findFirstDigit t.toList with
  | none => none
  | some cs => some (digitsToNat (cs.takeWhile Char.isDigit))

/-- The fixed 16-point compass array of `degreesToCompass`. -/
def directions : List String :=
  ["N", "NNE", "NE", "ENE", "E", "ESE", "SE", "SSE",
   "S", "SSW", "SW", "WSW", "W", "WNW", "NW", "NNW"]

/-- `WindguruScraper.degreesToCompass`: null outside `[0, 360]`, otherwise
`directions[Math.round(degrees / 22.5) % 16]`. -/
def degreesToCompass (degrees : ℚ) : Option String :=
  if degrees < 0 ∨ degrees > 360 then none
  else directions.get? ((jsRound (degrees / (45 / 2))).toNat % 16)

/-- The literal fragment `title="` of the title-attribute regex. -/
def dropTitleKey : List Char → Option (List Char)
  | 't' :: 'i' :: 't' :: 'l' :: 'e' :: '=' :: '"' :: rest => some rest
  | _ => none

/-- Completes a match of `title="[^"]*\((\d+)°\)"` after the literal
fragment: the quote-free run must be terminated by a quote and end in
`(<digits>°)`; greedy `[^"]*` makes the decomposition unique. -/
def titleCapture (rest : List Char) : Option Nat :=
  match rest.dropWhile (fun c => c != '"') with
  | '"' :: _ =>
    match (rest.takeWhile (fun c => c != '"')).reverse with
    | ')' :: '°' :: rev =>
      match rev.takeWhile Char.isDigit, rev.dropWhile Char.isDigit with
      | [], _ => none
      | ds, '(' :: _ => some (digitsToNat ds.reverse)
      | _, _ => none
    | _ => none
  | _ => none

/-- Leftmost match of `title="[^"]*\((\d+)°\)"` over the cell HTML. -/
def titleScan : List Char → Option Nat
  | [] => none
  | c :: cs =>
    match dropTitleKey (c :: cs) with
    | some rest =>
      match titleCapture rest with
      | some n => some n
      | none => titleScan cs
    | none => titleScan cs

/-- The case-insensitive literal fragment `rotate(` of the rotation regex. -/
def dropRotateKey : List Char → Option (List Char)
  | c0 :: c1 :: c2 :: c3 :: c4 :: c5 :: c6 :: rest =>
    if c0.toLower = 'r' ∧ c1.toLower = 'o' ∧ c2.toLower = 't' ∧ c3.toLower = 'a' ∧
        c4.toLower = 't' ∧ c5.toLower = 'e' ∧ c6 = '(' then some rest
    else none
  | _ => none

/-- Leftmost match of `rotate\((\d+(?:\.\d+)?)/i` over the cell HTML, the
capture read by `parseFloat`. -/
def rotateScan : List Char → Option ℚ
  | [] => none
  | c :: cs =>
    match dropRotateKey (c :: cs) with
    | some (d :: rest) =>
      if d.isDigit then some (parseDecimal (d :: rest)).1 else rotateScan cs
    | _ => rotateScan cs

/-- The text path of the direction decoding (on the trimmed cell text,
which the JS guards to be nonempty): a compass code is uppercased and used
directly, otherwise a degree number goes through `degreesToCompass`. -/
def parseDirectionText (t : String) : Option String :=
  if t = "" then none
  else
    match compassMatch t with
    | some code => some (jsToUpper code)
    | none =>
      match degreeTextMatch t with
      | some degrees => degreesToCompass (degrees : ℚ)
      | none => none

/-- The markup path of the direction decoding (entered only when the text
path produced null and the html is truthy): a `title` degree is emitted as a
degree string, else a rotation transform value is shifted by 180, reduced by
the JS remainder `% 360`, rounded, and emitted as a degree string. -/
def parseDirectionHtml (html : String) : Option String :=
  if html = "" then none
  else
    match titleScan html.toList with
    | some n => some (toString n ++ "°")
    | none =>
      match rotateScan html.toList with
      | some r => some (toString (jsRound (jsRem (r - 180) 360)) ++ "°")
      | none => none

/-- The wind-direction decoding of one cell inside `parseWindguruData`:
first the text path, then the markup fallback. -/
def parseWindDirectionCell (text html : String) : Option String :=
  match parseDirectionText (jsTrim text) with
  | some w => some w
  | none => parseDirectionHtml html

/-- The per-row cell arrays extracted by the fixed row-position mapping of
`parseWindguruData` (row 0 headers … row 8 precipitation, first cell of each
row already skipped). -/
structure RowSet where
  headers : List Cell
  windSpeed : List Cell
  windGusts : List Cell
  windDirection : List Cell
  temperature : List Cell
  cloudLow : List Cell
  cloudMid : List Cell
  cloudHigh : List Cell
  precipitation : List Cell

/-- One assembled forecast point; `timestamp` is the instant of the
`new Date().toISOString()` call made while building this point. -/
structure ForecastPoint where
  datetime : String
  windSpeed : Option ℚ
  windGusts : Option ℚ
  windDirection : Option String
  temperature : Option ℚ
  cloudCover : Option CloudCover
  precipitation : Option ℚ
  timestamp : Nat
deriving DecidableEq

/-- The `maxColumns` computation of `parseWindguruData`: the maximum of the
header, wind-speed, wind-gust, wind-direction, temperature and precipitation
row lengths (the three cloud rows do not participate). -/
def maxColumns (rows : RowSet) : Nat :=
  max rows.headers.length (max rows.windSpeed.length (max rows.windGusts.length
    (max rows.windDirection.length (max rows.temperature.length
      rows.precipitation.length))))

/-- The JS optional chain `rows.<key>?.[i]?.text`. -/
def cellTextAt (cells : List Cell) (i : Nat) : Option String :=
  (cells.get? i).map Cell.text

/-- The body of the assembly loop of `parseWindguruData` at column `i`;
`clock i` is the instant of this iteration's `new Date()` call. -/
def mkForecastPoint (rows : RowSet) (clock : Nat → Nat) (i : Nat) : ForecastPoint :=
  { datetime :=
      match cellTextAt rows.headers i with
      | some t => if t = "" then "col_" ++ toString i else t
      | none => "col_" ++ toString i
    windSpeed := (cellTextAt rows.windSpeed i).bind parseNumericValue
    windGusts := (cellTextAt rows.windGusts i).bind parseNumericValue
    windDirection := (rows.windDirection.get? i).bind fun c =>
      parseWindDirectionCell c.text c.html
    temperature := (cellTextAt rows.temperature i).bind parseNumericValue
    cloudCover := parseCloudCover (cellTextAt rows.cloudLow i)
      (cellTextAt rows.cloudMid i) (cellTextAt rows.cloudHigh i)
    precipitation := (cellTextAt rows.precipitation i).bind parseNumericValue
    timestamp := clock i }

/-- The assembly loop `for (let i = 0; i < maxColumns; i++)`. -/
def assembleForecasts (rows : RowSet) (clock : Nat → Nat) : List ForecastPoint :=
  (List.range (maxColumns rows)).map (mkForecastPoint rows clock)

/-- The tail of `parseWindguruData`: assemble, then throw
`No forecast data could be extracted from the table` on an empty result. -/
def parseWindguruData (rows : RowSet) (clock : Nat → Nat) :
    Except String (List ForecastPoint) :=
  if (assembleForecasts rows clock).length = 0 then
    Except.error "No forecast data could be extracted from the table"
  else Except.ok (assembleForecasts rows clock)

/-- The structured result returned by a successful scrape. -/
structure ForecastResult where
  spotId : String
  spotName : String
  url : String
  forecasts : List ForecastPoint
  scrapedAt : Nat
  source : String
deriving DecidableEq

/-- A cache slot: `{ data, timestamp: Date.now() }`. -/
structure CacheEntry where
  data : ForecastResult
  timestamp : Nat

/-- The scraper's `Map`-backed cache, one optional entry per spot id. -/
abbrev Cache := String → Option CacheEntry

/-- `this.cacheTimeout = 5 * 60 * 1000`. -/
def cacheTimeout : Nat := 5 * 60 * 1000

/-- `WindguruScraper.getCachedData`: a stored entry is returned while
`Date.now() - cached.timestamp < cacheTimeout`. -/
def getCachedData (cache : Cache) (now : Nat) (spotId : String) :
    Option ForecastResult :=
  match cache spotId with
  | some cached => if now - cached.timestamp < cacheTimeout then some cached.data else none
  | none => none

/-- `WindguruScraper.setCachedData`. -/
def setCachedData (cache : Cache) (now : Nat) (spotId : String)
    (data : ForecastResult) : Cache :=
  fun k => if k = spotId then some { data := data, timestamp := now } else cache k

/-- The outcomes the two fetch-and-parse strategies would produce for the
scraped URL: `scrapeWithAxios` and `scrapeWithPuppeteer` as oracles. -/
structure ScrapeEnv where
  axios : Except String ForecastResult
  pptr : Except String ForecastResult

/-- Observable outcome of one `scrapeSpot` call: its returned or thrown
value, the cache afterwards, and how often each strategy was invoked. -/
structure ScrapeOutcome where
  result : Except String ForecastResult
  cache : Cache
  axiosCalls : Nat
  pptrCalls : Nat

/-- `WindguruScraper.scrapeSpot`: extract the spot id, consult the cache,
on a miss try axios then fall back to puppeteer once, cache a success, and
wrap any thrown error as `Failed to scrape wind data: …` without touching
the cache. -/
def scrapeSpot (st : Cache) (now : Nat) (env : ScrapeEnv) (url : String) :
    ScrapeOutcome :=
  match extractSpotId url with
  | Except.error msg =>
    { result := Except.error ("Failed to scrape wind data: " ++ msg),
      cache := st, axiosCalls := 0, pptrCalls := 0 }
  | Except.ok spotId =>
    match getCachedData st now spotId with
    | some cachedData =>
      { result := Except.ok cachedData, cache := st, axiosCalls := 0, pptrCalls := 0 }
    | none =>
      match env.axios with
      | Except.ok forecastData =>
        { result := Except.ok forecastData,
          cache := setCachedData st now spotId forecastData,
          axiosCalls := 1, pptrCalls := 0 }
      | Except.error _ =>
        match env.pptr with
        | Except.ok forecastData =>
          { result := Except.ok forecastData,
            cache := setCachedData st now spotId forecastData,
            axiosCalls := 1, pptrCalls := 1 }
        | Except.error msg2 =>
          { result := Except.error ("Failed to scrape wind data: " ++ msg2),
            cache := st, axiosCalls := 1, pptrCalls := 1 }

/-! ## Concrete inputs used by witnesses and counterexamples -/

/-- Shorthand for a text-only cell. -/
def cellOf (t : String) : Cell := { text := t, html := "" }

/-- A two-column row set: two period headers, every other row empty. -/
def rows2 : RowSet :=
  { headers := [cellOf "Sa 10h", cellOf "Sa 13h"], windSpeed := [], windGusts := [],
    windDirection := [], temperature := [], cloudLow := [], cloudMid := [],
    cloudHigh := [], precipitation := [] }

/-- A small successful forecast result stamped at the given instant. -/
def resultOf (sid : String) (t : Nat) : ForecastResult :=
  { spotId := sid, spotName := "Spot", url := "windguru.cz/" ++ sid,
    forecasts := [], scrapedAt := t, source := "windguru" }

/-- An environment whose lightweight strategy always throws and whose
rendering strategy succeeds. -/
def envFallback (t : Nat) : ScrapeEnv :=
  { axios := Except.error "timeout of 10000ms exceeded",
    pptr := Except.ok (resultOf "1" t) }

/-- An environment in which both strategies throw. -/
def envFail : ScrapeEnv :=
  { axios := Except.error "timeout of 10000ms exceeded",
    pptr := Except.error "No forecast table found on page" }

/-- An environment whose lightweight strategy succeeds with a result stamped
at the given instant. -/
def envOk (t : Nat) : ScrapeEnv :=
  { axios := Except.ok (resultOf "1" t), pptr := Except.error "unused" }

/-- The empty cache. -/
def emptyCache : Cache := fun _ => none

/-- The maximum cell count across all nine extracted rows, as the claim
reads "max cell count across all extracted rows" (cloud rows included). -/
def allRowsMaxLen (rows : RowSet) : Nat :=
  max rows.headers.length (max rows.windSpeed.length (max rows.windGusts.length
    (max rows.windDirection.length (max rows.temperature.length
      (max rows.cloudLow.length (max rows.cloudMid.length
        (max rows.cloudHigh.length rows.precipitation.length)))))))

/-- A row set whose longest row is a cloud row. -/
def rowsCloudLong : RowSet :=
  { headers := [cellOf "h"], windSpeed := [], windGusts := [], windDirection := [],
    temperature := [], cloudLow := [cellOf "10", cellOf "20"], cloudMid := [],
    cloudHigh := [], precipitation := [] }

/-- The six-column example of the spec: six header cells and only four
precipitation cells. -/
def rows6 : RowSet :=
  { headers := [cellOf "h1", cellOf "h2", cellOf "h3", cellOf "h4", cellOf "h5", cellOf "h6"],
    windSpeed := [cellOf "10", cellOf "12", cellOf "14", cellOf "16", cellOf "18", cellOf "20"],
    windGusts := [], windDirection := [], temperature := [],
    cloudLow := [], cloudMid := [], cloudHigh := [],
    precipitation := [cellOf "0", cellOf "1", cellOf "2", cellOf "3"] }

/-! ## Helper lemmas -/

theorem digitsToNat_cast_nonneg (ds : List Char) : (0 : ℚ) ≤ (digitsToNat ds : ℚ) := by
  exact_mod_cast Nat.zero_le _

theorem parseDecimal_nonneg (cs : List Char) : 0 ≤ (parseDecimal cs).1 := by
  unfold parseDecimal
  split
  · split
    · exact digitsToNat_cast_nonneg _
    · have h1 := digitsToNat_cast_nonneg (cs.takeWhile Char.isDigit)
      have h2 := digitsToNat_cast_nonneg
        ((cs.dropWhile Char.isDigit).tail.takeWhile Char.isDigit)
      positivity
  · exact digitsToNat_cast_nonneg _

theorem rangeMax_nonneg (minV : ℚ) (rest : List Char) (h : 0 ≤ minV) :
    0 ≤ rangeMax minV rest := by
  unfold rangeMax
  split
  · split
    · split
      · exact parseDecimal_nonneg _
      · exact h
    · exact h
  · exact h

theorem jsRound_nonneg (q : ℚ) (h : 0 ≤ q) : 0 ≤ jsRound q := by
  unfold jsRound
  exact Int.le_floor.mpr (by push_cast; linarith)

theorem rotateScan_nonneg : ∀ cs r, rotateScan cs = some r → 0 ≤ r := by
  intro cs
  induction cs with
  | nil => intro r h; simp [rotateScan] at h
  | cons c cs ih =>
    intro r h
    rw [rotateScan] at h
    rcases hd : dropRotateKey (c :: cs) with _ | rest
    · rw [hd] at h
      exact ih r h
    · rw [hd] at h
      cases rest with
      | nil => exact ih r h
      | cons d rest' =>
        have h' : (if d.isDigit = true then some (parseDecimal (d :: rest')).1
            else rotateScan cs) = some r := h
        by_cases hdig : d.isDigit = true
        · rw [if_pos hdig] at h'
          cases h'
          exact parseDecimal_nonneg _
        · rw [if_neg hdig] at h'
          exact ih r h'

/-! ## C10: parseNumericValue never returns a negative number -/

/-- C10 (confirmed): `parseNumericValue` never returns a negative number:
the regex captures no minus sign, so "-5" decodes to 5.0, and a dash between
two numbers is read as a range whose midpoint is returned ("10-14" gives
12.0). -/
theorem C10_parseNumericValue_nonneg :
    (∀ text q, parseNumericValue text = some q → 0 ≤ q) ∧
    parseNumericValue "-5" = some 5 ∧
    parseNumericValue "10-14" = some 12 := by
  refine ⟨?_, by decide, by decide⟩
  intro text q h
  unfold parseNumericValue at h
  split at h
  · exact absurd h (by simp)
  · split at h
    · exact absurd h (by simp)
    · rename_i cs heq
      have hmin := parseDecimal_nonneg cs
      have hmax := rangeMax_nonneg (parseDecimal cs).1 (parseDecimal cs).2 hmin
      have hq : q = ((jsRound (((parseDecimal cs).1 +
          rangeMax (parseDecimal cs).1 (parseDecimal cs).2) / 2 * 10) : ℚ)) / 10 := by
        simpa using h.symm
      rw [hq]
      have hr := jsRound_nonneg (((parseDecimal cs).1 +
          rangeMax (parseDecimal cs).1 (parseDecimal cs).2) / 2 * 10) (by linarith)
      have : (0 : ℚ) ≤ (jsRound (((parseDecimal cs).1 +
          rangeMax (parseDecimal cs).1 (parseDecimal cs).2) / 2 * 10) : ℚ) := by
        exact_mod_cast hr
      linarith

/-- Closed witness for C10 at a concrete input. -/
theorem C10_witness : parseNumericValue "7.5" = some (15 / 2) ∧ (0 : ℚ) ≤ 15 / 2 :=
  ⟨by decide, C10_parseNumericValue_nonneg.1 "7.5" (15 / 2) (by decide)⟩

/-! ## C2: cloud-cover aggregation -/

/-- C2 (counterexample): the claimed [0,100] validity filter does not exist:
for input low 40, mid 120, high 0, the mid value 120 is kept and `total`
comes out as 120, not the claimed 40. -/
theorem C2_counterexample :
    (parseCloudCover (some "40") (some "120") (some "0")).map CloudCover.total =
      some 120 ∧ (120 : ℚ) ≠ 40 := by
  refine ⟨by decide, by decide⟩

/-- C2 (amended): no range filter is applied to the decoded levels; the field
is null exactly when all three levels decode to null, and otherwise every
decoded value — also one outside [0,100] — is kept unchanged, with
`total` the maximum of the three values where null counts as 0 (so a decoded
mid value always bounds `total` from below). -/
theorem C2_amended (lt mt ht : Option String) :
    (parseCloudCover lt mt ht = none ↔
      (lt.bind parseNumericValue = none ∧ mt.bind parseNumericValue = none ∧
        ht.bind parseNumericValue = none)) ∧
    (∀ cc, parseCloudCover lt mt ht = some cc →
      cc.low = lt.bind parseNumericValue ∧
      cc.mid = mt.bind parseNumericValue ∧
      cc.high = ht.bind parseNumericValue ∧
      cc.total = max ((lt.bind parseNumericValue).getD 0)
        (max ((mt.bind parseNumericValue).getD 0)
          ((ht.bind parseNumericValue).getD 0)) ∧
      (∀ v, mt.bind parseNumericValue = some v → v ≤ cc.total)) := by
  unfold parseCloudCover
  split
  · rename_i hcond
    refine ⟨⟨fun _ => hcond, fun _ => rfl⟩, ?_⟩
    intro cc h
    cases h
  · rename_i hcond
    constructor
    · constructor
      · intro h; cases h
      · intro h; exact absurd h hcond
    · intro cc h
      injection h with h2
      subst h2
      refine ⟨rfl, rfl, rfl, rfl, ?_⟩
      intro v hv
      simp only [hv, Option.getD_some]
      exact le_trans (le_max_left v _) (le_max_right _ _)

/-- Closed witness for C2 at concrete inputs. -/
theorem C2_witness :
    parseCloudCover (some "30") none (some "55") =
      some { low := some 30, mid := none, high := some 55, total := 55 } ∧
    parseCloudCover none (some "x") none = none := by
  constructor
  · have h := (C2_amended (some "30") none (some "55")).2
    decide
  · exact (C2_amended none (some "x") none).1.mpr (by decide)

/-! ## C7: the rotation-transform fallback -/

/-- For a dividend in `(-360, 0)` the JS remainder by 360 is the dividend
itself (negative), not the mathematical modulus. -/
theorem jsRem_neg_small (a : ℚ) (h1 : -360 < a) (h2 : a < 0) : jsRem a 360 = a := by
  unfold jsRem jsTrunc
  have hq : a / 360 < 0 := div_neg_of_neg_of_pos h2 (by norm_num)
  rw [if_pos hq]
  have hc : ⌈a / 360⌉ = 0 := by
    rw [Int.ceil_eq_zero_iff]
    constructor
    · show (-1 : ℚ) < a / 360
      rw [lt_div_iff₀ (by norm_num : (0:ℚ) < 360)]
      linarith
    · show a / 360 ≤ 0
      linarith
  rw [hc]
  push_cast
  ring

/-- C7 (counterexample): for the rotation value 45 the code emits `-135°`
(the JS remainder keeps the sign of `45 - 180`), not the claimed
`((45 - 180) mod 360) = 225` in `[0, 360)`. -/
theorem C7_counterexample :
    parseWindDirectionCell "" "<g transform=\"rotate(45)\">" = some "-135°" ∧
    toString ((45 - 180 : ℤ) % 360) ++ "°" = "225°" ∧
    ("-135°" : String) ≠ "225°" := by
  refine ⟨by decide, by decide, by decide⟩

/-- C7 (amended): in the markup fallback, for every rotation value `r`
(always nonnegative, as the regex captures an unsigned number), the emitted
direction is the degree string of `round((r - 180) jsrem 360)` where `jsrem`
is the sign-preserving JS remainder; for `r < 180` this remainder equals
`r - 180` itself, a negative number, so the output is not wrapped into
`[0, 360)`. -/
theorem C7_amended (text html : String) (r : ℚ)
    (htext : jsTrim text = "")
    (htitle : titleScan html.toList = none)
    (hrot : rotateScan html.toList = some r) :
    parseWindDirectionCell text html =
      some (toString (jsRound (jsRem (r - 180) 360)) ++ "°") ∧
    0 ≤ r ∧
    (r < 180 → jsRem (r - 180) 360 = r - 180) := by
  have hr0 : 0 ≤ r := rotateScan_nonneg html.toList r hrot
  have hhtml : html ≠ "" := by
    intro he
    have h0 : rotateScan ("" : String).toList = none := rfl
    rw [he, h0] at hrot
    cases hrot
  refine ⟨?_, hr0, ?_⟩
  · have h1 : parseDirectionText (jsTrim text) = none := by rw [htext]; rfl
    unfold parseWindDirectionCell
    rw [h1]
    show parseDirectionHtml html = _
    unfold parseDirectionHtml
    rw [if_neg hhtml, htitle, hrot]
  · intro hlt
    exact jsRem_neg_small (r - 180) (by linarith) (by linarith)

/-- Closed witness for C7 at a concrete rotation. -/
theorem C7_witness :
    parseWindDirectionCell "" "<g transform=\"rotate(250)\">" = some "70°" := by
  have h := C7_amended "" "<g transform=\"rotate(250)\">" 250 rfl (by decide) (by decide)
  rw [h.1]
  decide

/-! ## C8: the two coexisting direction representations -/

/-- C8 (confirmed): a 1-3 letter compass code in the cell text is emitted
uppercased and unchanged; degree text goes through the 22.5-degree bucket
rule (`"135°"` becomes `"SE"`); a degree value obtained from the markup
(title attribute) is emitted as a degree string and never converted to a
compass code (`"135°"` stays `"135°"`), so the two representations are not
unified. -/
theorem C8_two_representations :
    (∀ text html c, compassMatch (jsTrim text) = some c →
      parseWindDirectionCell text html = some (jsToUpper c)) ∧
    (∀ text html n, jsTrim text = "" → titleScan html.toList = some n →
      parseWindDirectionCell text html = some (toString n ++ "°")) ∧
    parseWindDirectionCell "NE" "" = some "NE" ∧
    parseWindDirectionCell "135°" "" = some "SE" ∧
    parseWindDirectionCell "" "<img title=\"NW (135°)\">" = some "135°" ∧
    ("135°" : String) ≠ "SE" := by
  refine ⟨?_, ?_, by decide, by decide, by decide, by decide⟩
  · intro text html c h
    have hne : jsTrim text ≠ "" := by
      intro he
      have h0 : compassMatch "" = none := rfl
      rw [he, h0] at h
      cases h
    unfold parseWindDirectionCell parseDirectionText
    rw [if_neg hne, h]
  · intro text html n htext htitle
    have hhtml : html ≠ "" := by
      intro he
      have h0 : titleScan ("" : String).toList = none := rfl
      rw [he, h0] at htitle
      cases htitle
    have h1 : parseDirectionText (jsTrim text) = none := by rw [htext]; rfl
    unfold parseWindDirectionCell
    rw [h1]
    show parseDirectionHtml html = _
    unfold parseDirectionHtml
    rw [if_neg hhtml, htitle]

/-- Closed witness for C8: both paths exercised at concrete cells. -/
theorem C8_witness :
    parseWindDirectionCell "se" "" = some "SE" ∧
    parseWindDirectionCell "" "<a title=\"E (7°)\">" = some "7°" := by
  constructor
  · have h := C8_two_representations.1 "se" "" "se" (by decide)
    rw [h]
    decide
  · have h := C8_two_representations.2.1 "" "<a title=\"E (7°)\">" 7 rfl (by decide)
    rw [h]
    decide

/-! ## C9: capturedAt across the points of one result -/

/-- C9 (counterexample): the code stamps each point with its own
`new Date()` call; when the clock advances between iterations (here it reads
0 then 1), one successfully parsed result carries two different `capturedAt`
values, refuting the claim that the field is equal across all points. -/
theorem C9_counterexample :
    Except.map (List.map ForecastPoint.timestamp)
      (parseWindguruData rows2 (fun i => i)) = Except.ok [0, 1] ∧
    (0 : Nat) ≠ 1 :=
  ⟨rfl, by decide⟩

/-- C9 (amended): all points of one result carry the same `capturedAt`
provided every per-point clock read during the assembly loop returns the
same instant; the code does not itself enforce this, since it reads the
clock once per point. -/
theorem C9_amended (rows : RowSet) (t : Nat) :
    ∀ p ∈ assembleForecasts rows (fun _ => t), p.timestamp = t := by
  intro p hp
  rw [assembleForecasts] at hp
  obtain ⟨i, hi, rfl⟩ := List.mem_map.mp hp
  rfl

/-- Closed witness for C9 at a concrete row set and instant. -/
theorem C9_witness : (mkForecastPoint rows2 (fun _ => 77) 0).timestamp = 77 :=
  C9_amended rows2 77 (mkForecastPoint rows2 (fun _ => 77) 0) (by decide)

/-! ## Case equations for scrapeSpot -/

/-- A malformed URL makes `scrapeSpot` fail before touching anything. -/
theorem scrapeSpot_malformed (st : Cache) (now : Nat) (env : ScrapeEnv) (url msg : String)
    (h : extractSpotId url = Except.error msg) :
    scrapeSpot st now env url =
      { result := Except.error ("Failed to scrape wind data: " ++ msg),
        cache := st, axiosCalls := 0, pptrCalls := 0 } := by
  simp only [scrapeSpot, h]

/-- A cache hit returns the cached data with no fetch. -/
theorem scrapeSpot_hit (st : Cache) (now : Nat) (env : ScrapeEnv) (url id : String)
    (d : ForecastResult) (h1 : extractSpotId url = Except.ok id)
    (h2 : getCachedData st now id = some d) :
    scrapeSpot st now env url =
      { result := Except.ok d, cache := st, axiosCalls := 0, pptrCalls := 0 } := by
  simp only [scrapeSpot, h1, h2]

/-- A miss with a successful lightweight fetch caches and returns it. -/
theorem scrapeSpot_miss_axios (st : Cache) (now : Nat) (env : ScrapeEnv) (url id : String)
    (d : ForecastResult) (h1 : extractSpotId url = Except.ok id)
    (h2 : getCachedData st now id = none) (h3 : env.axios = Except.ok d) :
    scrapeSpot st now env url =
      { result := Except.ok d, cache := setCachedData st now id d,
        axiosCalls := 1, pptrCalls := 0 } := by
  simp only [scrapeSpot, h1, h2, h3]

/-- A miss with a failing lightweight fetch and a successful rendering fetch
caches and returns the rendering result. -/
theorem scrapeSpot_miss_pptr_ok (st : Cache) (now : Nat) (env : ScrapeEnv)
    (url id e : String) (d : ForecastResult) (h1 : extractSpotId url = Except.ok id)
    (h2 : getCachedData st now id = none) (h3 : env.axios = Except.error e)
    (h4 : env.pptr = Except.ok d) :
    scrapeSpot st now env url =
      { result := Except.ok d, cache := setCachedData st now id d,
        axiosCalls := 1, pptrCalls := 1 } := by
  simp only [scrapeSpot, h1, h2, h3, h4]

/-- A miss with both strategies failing propagates the wrapped rendering
error and leaves the cache untouched. -/
theorem scrapeSpot_miss_pptr_err (st : Cache) (now : Nat) (env : ScrapeEnv)
    (url id e e2 : String) (h1 : extractSpotId url = Except.ok id)
    (h2 : getCachedData st now id = none) (h3 : env.axios = Except.error e)
    (h4 : env.pptr = Except.error e2) :
    scrapeSpot st now env url =
      { result := Except.error ("Failed to scrape wind data: " ++ e2),
        cache := st, axiosCalls := 1, pptrCalls := 1 } := by
  simp only [scrapeSpot, h1, h2, h3, h4]

/-! ## C3: the lightweight-then-rendering fallback -/

/-- C3 (confirmed): on a cache miss the lightweight strategy is attempted
first; when it fails for any reason the rendering strategy is invoked exactly
once and its result returned, and a rendering failure makes the whole call
fail with the wrapped error. -/
theorem C3_fallback (st : Cache) (now : Nat) (env : ScrapeEnv) (url id e : String)
    (hid : extractSpotId url = Except.ok id)
    (hmiss : getCachedData st now id = none)
    (haxios : env.axios = Except.error e) :
    (scrapeSpot st now env url).axiosCalls = 1 ∧
    (scrapeSpot st now env url).pptrCalls = 1 ∧
    (∀ r, env.pptr = Except.ok r → (scrapeSpot st now env url).result = Except.ok r) ∧
    (∀ e2, env.pptr = Except.error e2 →
      (scrapeSpot st now env url).result =
        Except.error ("Failed to scrape wind data: " ++ e2)) := by
  cases hp : env.pptr with
  | ok r =>
    rw [scrapeSpot_miss_pptr_ok st now env url id e r hid hmiss haxios hp]
    refine ⟨rfl, rfl, fun r2 hr2 => ?_, fun e2 he2 => ?_⟩
    · injection hr2 with h
      rw [h]
    · cases he2
  | error e2 =>
    rw [scrapeSpot_miss_pptr_err st now env url id e e2 hid hmiss haxios hp]
    refine ⟨rfl, rfl, fun r2 hr2 => ?_, fun e3 he3 => ?_⟩
    · cases hr2
    · injection he3 with h
      rw [h]

/-- Closed witness for C3: with a lightweight double that throws and a
rendering double that succeeds, the rendering strategy runs exactly once and
its result is returned. -/
theorem C3_witness :
    (scrapeSpot emptyCache 0 (envFallback 0) "windguru.cz/1").pptrCalls = 1 ∧
    (scrapeSpot emptyCache 0 (envFallback 0) "windguru.cz/1").result =
      Except.ok (resultOf "1" 0) := by
  have h := C3_fallback emptyCache 0 (envFallback 0) "windguru.cz/1" "1"
    "timeout of 10000ms exceeded" rfl rfl rfl
  exact ⟨h.2.1, h.2.2.1 (resultOf "1" 0) rfl⟩

/-! ## C6: failures are never cached -/

/-- C6 (confirmed): when `scrapeSpot` fails with any error the cache is left
exactly as it was, and (for a URL whose spot id does extract) every later
call at a time at least as late still misses the cache and attempts the
lightweight fetch again. -/
theorem C6_no_cache_on_failure (st : Cache) (now : Nat) (env : ScrapeEnv) (url e : String)
    (herr : (scrapeSpot st now env url).result = Except.error e) :
    (scrapeSpot st now env url).cache = st ∧
    (∀ id, extractSpotId url = Except.ok id → ∀ now', now ≤ now' → ∀ env',
      (scrapeSpot st now' env' url).axiosCalls = 1) := by
  cases hid : extractSpotId url with
  | error msg =>
    rw [scrapeSpot_malformed st now env url msg hid]
    refine ⟨rfl, fun id hid2 => ?_⟩
    cases hid2
  | ok id =>
    have hmiss : getCachedData st now id = none := by
      cases hcc : getCachedData st now id with
      | none => rfl
      | some d =>
        rw [scrapeSpot_hit st now env url id d hid hcc] at herr
        cases herr
    have hmiss' : ∀ now', now ≤ now' → getCachedData st now' id = none := by
      intro now' hle
      cases hc : st id with
      | none => simp only [getCachedData, hc]
      | some entry =>
        simp only [getCachedData, hc] at hmiss ⊢
        have hnot : ¬ now - entry.timestamp < cacheTimeout := by
          intro hlt
          rw [if_pos hlt] at hmiss
          cases hmiss
        exact if_neg (fun hlt =>
          hnot (lt_of_le_of_lt (Nat.sub_le_sub_right hle entry.timestamp) hlt))
    constructor
    · cases ha : env.axios with
      | ok d =>
        rw [scrapeSpot_miss_axios st now env url id d hid hmiss ha] at herr
        cases herr
      | error e1 =>
        cases hp : env.pptr with
        | ok d =>
          rw [scrapeSpot_miss_pptr_ok st now env url id e1 d hid hmiss ha hp] at herr
          cases herr
        | error e2 =>
          rw [scrapeSpot_miss_pptr_err st now env url id e1 e2 hid hmiss ha hp]
    · intro id2 hid2 now' hle env'
      injection hid2 with hid3
      subst hid3
      cases ha : env'.axios with
      | ok d =>
        rw [scrapeSpot_miss_axios st now' env' url id d hid (hmiss' now' hle) ha]
      | error e1 =>
        cases hp : env'.pptr with
        | ok d =>
          rw [scrapeSpot_miss_pptr_ok st now' env' url id e1 d hid (hmiss' now' hle) ha hp]
        | error e2 =>
          rw [scrapeSpot_miss_pptr_err st now' env' url id e1 e2 hid (hmiss' now' hle) ha hp]

/-- Closed witness for C6: a concrete failing scrape leaves the empty cache
empty and a later call attempts the network again. -/
theorem C6_witness :
    (scrapeSpot emptyCache 0 envFail "windguru.cz/1").cache = emptyCache ∧
    (scrapeSpot emptyCache 60000 envFail "windguru.cz/1").axiosCalls = 1 := by
  have h := C6_no_cache_on_failure emptyCache 0 envFail "windguru.cz/1"
    ("Failed to scrape wind data: " ++ "No forecast table found on page") rfl
  exact ⟨h.1, h.2 "1" rfl 60000 (by decide) envFail⟩

/-! ## C5: cache round-trip within and beyond the TTL -/

/-- C5 (counterexample): the claim quantifies over any successful scrape,
but a scrape can succeed by hitting a cache entry stored earlier.  Here the
entry was stored at time 0, the first scrape at 240000 succeeds from the
cache, and the second scrape only 120000 ms later (well within 5 minutes of
the first call) misses, re-fetches (one lightweight call) and returns a
result with a different `scrapedAt`. -/
theorem C5_counterexample :
    (scrapeSpot (setCachedData emptyCache 0 "1" (resultOf "1" 0)) 240000
        (envFallback 240000) "windguru.cz/1").result = Except.ok (resultOf "1" 0) ∧
    360000 - 240000 < cacheTimeout ∧
    (scrapeSpot (scrapeSpot (setCachedData emptyCache 0 "1" (resultOf "1" 0)) 240000
        (envFallback 240000) "windguru.cz/1").cache 360000
        (envOk 360000) "windguru.cz/1").axiosCalls = 1 ∧
    (scrapeSpot (scrapeSpot (setCachedData emptyCache 0 "1" (resultOf "1" 0)) 240000
        (envFallback 240000) "windguru.cz/1").cache 360000
        (envOk 360000) "windguru.cz/1").result ≠ Except.ok (resultOf "1" 0) := by
  refine ⟨rfl, by decide, rfl, ?_⟩
  intro h
  have h2 : resultOf "1" 360000 = resultOf "1" 0 := Except.ok.inj h
  have h3 : (resultOf "1" 360000).scrapedAt = (resultOf "1" 0).scrapedAt := by rw [h2]
  exact absurd h3 (by decide)

/-- C5 (amended): if the scrape at time `t` is a cache miss whose fetch
succeeds (storing the result, whose `scrapedAt` is `t`, at `t`), then a
second scrape of the same URL at `t'` with `t' - t` under the TTL returns
the identical cached result with no new fetch, while once `t' - t` reaches
the TTL the lookup misses, a re-fetch occurs and `scrapedAt` advances. -/
theorem C5_amended (st : Cache) (t t' : Nat) (env1 env2 : ScrapeEnv)
    (url id : String) (r r2 : ForecastResult)
    (hid : extractSpotId url = Except.ok id)
    (hmiss : getCachedData st t id = none)
    (h1 : (scrapeSpot st t env1 url).result = Except.ok r)
    (hr : r.scrapedAt = t)
    (h2 : env2.axios = Except.ok r2) (hr2 : r2.scrapedAt = t') :
    (t' - t < cacheTimeout →
      (scrapeSpot (scrapeSpot st t env1 url).cache t' env2 url).result = Except.ok r ∧
      (scrapeSpot (scrapeSpot st t env1 url).cache t' env2 url).axiosCalls = 0 ∧
      (scrapeSpot (scrapeSpot st t env1 url).cache t' env2 url).pptrCalls = 0) ∧
    (cacheTimeout ≤ t' - t →
      (scrapeSpot (scrapeSpot st t env1 url).cache t' env2 url).result = Except.ok r2 ∧
      (scrapeSpot (scrapeSpot st t env1 url).cache t' env2 url).axiosCalls = 1 ∧
      r.scrapedAt < r2.scrapedAt) := by
  have hcache : (scrapeSpot st t env1 url).cache = setCachedData st t id r := by
    cases ha : env1.axios with
    | ok d =>
      rw [scrapeSpot_miss_axios st t env1 url id d hid hmiss ha] at h1 ⊢
      have h1x : Except.ok d = Except.ok r := h1
      injection h1x with h1y
      rw [h1y]
    | error e1 =>
      cases hp : env1.pptr with
      | ok d =>
        rw [scrapeSpot_miss_pptr_ok st t env1 url id e1 d hid hmiss ha hp] at h1 ⊢
        have h1x : Except.ok d = Except.ok r := h1
        injection h1x with h1y
        rw [h1y]
      | error e2 =>
        rw [scrapeSpot_miss_pptr_err st t env1 url id e1 e2 hid hmiss ha hp] at h1
        cases h1
  have hentry : (scrapeSpot st t env1 url).cache id =
      some { data := r, timestamp := t } := by
    rw [hcache]
    simp [setCachedData]
  constructor
  · intro hlt
    have hhit : getCachedData ((scrapeSpot st t env1 url).cache) t' id = some r := by
      simp only [getCachedData, hentry]
      rw [if_pos hlt]
    rw [scrapeSpot_hit ((scrapeSpot st t env1 url).cache) t' env2 url id r hid hhit]
    exact ⟨rfl, rfl, rfl⟩
  · intro hge
    have hmiss2 : getCachedData ((scrapeSpot st t env1 url).cache) t' id = none := by
      simp only [getCachedData, hentry]
      exact if_neg (fun hlt => absurd hlt (not_lt_of_ge hge))
    rw [scrapeSpot_miss_axios ((scrapeSpot st t env1 url).cache) t' env2 url id r2
      hid hmiss2 h2]
    refine ⟨rfl, rfl, ?_⟩
    rw [hr, hr2]
    have hct : cacheTimeout = 300000 := rfl
    omega

/-- Closed witness for C5: a fresh fetch at time 0, a hit at 100000 with the
identical result, and a refetch at 300000 with an advanced `scrapedAt`. -/
theorem C5_witness :
    (scrapeSpot (scrapeSpot emptyCache 0 (envOk 0) "windguru.cz/1").cache 100000
      (envOk 100000) "windguru.cz/1").result = Except.ok (resultOf "1" 0) ∧
    (scrapeSpot (scrapeSpot emptyCache 0 (envOk 0) "windguru.cz/1").cache 300000
      (envOk 300000) "windguru.cz/1").result = Except.ok (resultOf "1" 300000) := by
  constructor
  · exact ((C5_amended emptyCache 0 100000 (envOk 0) (envOk 100000) "windguru.cz/1" "1"
      (resultOf "1" 0) (resultOf "1" 100000) rfl rfl rfl rfl rfl rfl).1 (by decide)).1
  · exact ((C5_amended emptyCache 0 300000 (envOk 0) (envOk 300000) "windguru.cz/1" "1"
      (resultOf "1" 0) (resultOf "1" 300000) rfl rfl rfl rfl rfl rfl).2 (by decide)).1

/-! ## C1: column count and null-padding of short rows -/

/-- Inversion for elements of the assembled list: an index in range yields
exactly the point built by the loop body. -/
theorem assembleForecasts_get (rows : RowSet) (clock : Nat → Nat) (i : Nat)
    (p : ForecastPoint) (h : (assembleForecasts rows clock).get? i = some p) :
    i < maxColumns rows ∧ p = mkForecastPoint rows clock i := by
  rw [assembleForecasts, List.get?_map] at h
  by_cases hlt : i < maxColumns rows
  · rw [List.get?_range hlt] at h
    have h2 : some (mkForecastPoint rows clock i) = some p := h
    injection h2 with h3
    exact ⟨hlt, h3.symm⟩
  · rw [List.get?_eq_none.mpr (by rw [List.length_range]; omega)] at h
    cases h

/-- C1 (counterexample): the assembly width ignores the three cloud rows:
with one header cell and a two-cell low-cloud row, the maximum cell count
across all extracted rows is 2 but only 1 point is assembled. -/
theorem C1_counterexample :
    (assembleForecasts rowsCloudLong (fun _ => 0)).length ≠ allRowsMaxLen rowsCloudLong := by
  decide

/-- C1 (amended): assembly produces exactly N points where N is the maximum
cell count over the header, wind-speed, wind-gust, wind-direction,
temperature and precipitation rows (the cloud rows are excluded from the
maximum); each point at a column a row lacks carries null in the
corresponding field (the cloud field is null when all three cloud rows lack
the column), and as long as N is positive the parse returns the points
rather than an error. -/
theorem C1_amended (rows : RowSet) (clock : Nat → Nat) :
    (assembleForecasts rows clock).length = maxColumns rows ∧
    (∀ i p, (assembleForecasts rows clock).get? i = some p →
      (rows.windSpeed.length ≤ i → p.windSpeed = none) ∧
      (rows.windGusts.length ≤ i → p.windGusts = none) ∧
      (rows.windDirection.length ≤ i → p.windDirection = none) ∧
      (rows.temperature.length ≤ i → p.temperature = none) ∧
      (rows.precipitation.length ≤ i → p.precipitation = none) ∧
      (rows.cloudLow.length ≤ i → rows.cloudMid.length ≤ i →
        rows.cloudHigh.length ≤ i → p.cloudCover = none)) ∧
    (0 < maxColumns rows →
      parseWindguruData rows clock = Except.ok (assembleForecasts rows clock)) := by
  have hlen : (assembleForecasts rows clock).length = maxColumns rows := by
    rw [assembleForecasts, List.length_map, List.length_range]
  refine ⟨hlen, ?_, ?_⟩
  · intro i p hp
    obtain ⟨hlt, hpeq⟩ := assembleForecasts_get rows clock i p hp
    subst hpeq
    refine ⟨?_, ?_, ?_, ?_, ?_, ?_⟩
    · intro hle
      show ((rows.windSpeed.get? i).map Cell.text).bind parseNumericValue = none
      rw [List.get?_eq_none.mpr hle]
      rfl
    · intro hle
      show ((rows.windGusts.get? i).map Cell.text).bind parseNumericValue = none
      rw [List.get?_eq_none.mpr hle]
      rfl
    · intro hle
      show ((rows.windDirection.get? i).bind fun c =>
        parseWindDirectionCell c.text c.html) = none
      rw [List.get?_eq_none.mpr hle]
      rfl
    · intro hle
      show ((rows.temperature.get? i).map Cell.text).bind parseNumericValue = none
      rw [List.get?_eq_none.mpr hle]
      rfl
    · intro hle
      show ((rows.precipitation.get? i).map Cell.text).bind parseNumericValue = none
      rw [List.get?_eq_none.mpr hle]
      rfl
    · intro h1 h2 h3
      show parseCloudCover ((rows.cloudLow.get? i).map Cell.text)
        ((rows.cloudMid.get? i).map Cell.text)
        ((rows.cloudHigh.get? i).map Cell.text) = none
      rw [List.get?_eq_none.mpr h1, List.get?_eq_none.mpr h2, List.get?_eq_none.mpr h3]
      rfl
  · intro hpos
    unfold parseWindguruData
    rw [if_neg (by rw [hlen]; omega)]

/-- Closed witness for C1 at the six-column example: six points, the last
two with null precipitation. -/
theorem C1_witness :
    (assembleForecasts rows6 (fun _ => 0)).length = 6 ∧
    (mkForecastPoint rows6 (fun _ => 0) 4).precipitation = none ∧
    (mkForecastPoint rows6 (fun _ => 0) 5).precipitation = none := by
  have h := C1_amended rows6 (fun _ => 0)
  refine ⟨h.1.trans (by decide), ?_, ?_⟩
  · exact (h.2.1 4 (mkForecastPoint rows6 (fun _ => 0) 4)
      (by decide)).2.2.2.2.1 (by decide)
  · exact (h.2.1 5 (mkForecastPoint rows6 (fun _ => 0) 5)
      (by decide)).2.2.2.2.1 (by decide)

/-! ## C4: URL identification versus the spec pattern -/

/-- Inverting a successful literal strip: the input is the literal followed
by the remainder. -/
theorem stripPre_eq_append : ∀ ps cs rest, stripPre ps cs = some rest → cs = ps ++ rest := by
  intro ps
  induction ps with
  | nil =>
    intro cs rest h
    injection h
  | cons p ps ih =>
    intro cs rest h
    cases cs with
    | nil => cases h
    | cons c cs2 =>
      have h' : (if c = p then stripPre ps cs2 else none) = some rest := h
      by_cases hc : c = p
      · rw [if_pos hc] at h'
        rw [hc, ih cs2 rest h']
        rfl
      · rw [if_neg hc] at h'
        cases h'

/-- A literal always strips off the front of itself. -/
theorem stripPre_append : ∀ ps cs : List Char, stripPre ps (ps ++ cs) = some cs := by
  intro ps
  induction ps with
  | nil => intro cs; rfl
  | cons p ps ih => intro cs; simp [stripPre, ih]

/-- A scan step over a position where the key does not match. -/
theorem scanSpot_cons_none (c : Char) (cs : List Char)
    (h : stripPre windguruKey (c :: cs) = none) : scanSpot (c :: cs) = scanSpot cs := by
  simp [scanSpot, h]

/-- A scan step over a position where the key matches and a digit follows. -/
theorem scanSpot_cons_some (c : Char) (cs rest : List Char)
    (h : stripPre windguruKey (c :: cs) = some rest)
    (h2 : (rest.takeWhile Char.isDigit).isEmpty = false) :
    scanSpot (c :: cs) = some (rest.takeWhile Char.isDigit) := by
  simp [scanSpot, h, h2]

/-- The key never matches at a position not starting with its first letter. -/
theorem stripKey_not_w (c : Char) (cs : List Char) (h : ¬ c = 'w') :
    stripPre windguruKey (c :: cs) = none := by
  simp [windguruKey, stripPre, h]

/-- The key never matches at a position starting `ww`. -/
theorem stripKey_ww (cs : List Char) : stripPre windguruKey ('w' :: 'w' :: cs) = none := rfl

/-- The key never matches at a position starting `w.`. -/
theorem stripKey_wdot (cs : List Char) : stripPre windguruKey ('w' :: '.' :: cs) = none := rfl

/-- Scanning walks over an `http://` scheme without matching. -/
theorem scanSpot_http (tail : List Char) :
    scanSpot ('h' :: 't' :: 't' :: 'p' :: ':' :: '/' :: '/' :: tail) = scanSpot tail := by
  rw [scanSpot_cons_none _ _ (stripKey_not_w _ _ (by decide)),
    scanSpot_cons_none _ _ (stripKey_not_w _ _ (by decide)),
    scanSpot_cons_none _ _ (stripKey_not_w _ _ (by decide)),
    scanSpot_cons_none _ _ (stripKey_not_w _ _ (by decide)),
    scanSpot_cons_none _ _ (stripKey_not_w _ _ (by decide)),
    scanSpot_cons_none _ _ (stripKey_not_w _ _ (by decide)),
    scanSpot_cons_none _ _ (stripKey_not_w _ _ (by decide))]

/-- Scanning walks over an `https://` scheme without matching. -/
theorem scanSpot_https (tail : List Char) :
    scanSpot ('h' :: 't' :: 't' :: 'p' :: 's' :: ':' :: '/' :: '/' :: tail) = scanSpot tail := by
  rw [scanSpot_cons_none _ _ (stripKey_not_w _ _ (by decide)),
    scanSpot_cons_none _ _ (stripKey_not_w _ _ (by decide)),
    scanSpot_cons_none _ _ (stripKey_not_w _ _ (by decide)),
    scanSpot_cons_none _ _ (stripKey_not_w _ _ (by decide)),
    scanSpot_cons_none _ _ (stripKey_not_w _ _ (by decide)),
    scanSpot_cons_none _ _ (stripKey_not_w _ _ (by decide)),
    scanSpot_cons_none _ _ (stripKey_not_w _ _ (by decide)),
    scanSpot_cons_none _ _ (stripKey_not_w _ _ (by decide))]

/-- Scanning walks over a `www.` fragment without matching. -/
theorem scanSpot_www (tail : List Char) :
    scanSpot ('w' :: 'w' :: 'w' :: '.' :: tail) = scanSpot tail := by
  rw [scanSpot_cons_none _ _ (stripKey_ww _),
    scanSpot_cons_none _ _ (stripKey_ww _),
    scanSpot_cons_none _ _ (stripKey_wdot _),
    scanSpot_cons_none _ _ (stripKey_not_w _ _ (by decide))]

/-- Scanning a host-and-digits tail captures the digit run. -/
theorem scanSpot_key (body : List Char)
    (h : (body.takeWhile Char.isDigit).isEmpty = false) :
    scanSpot ('w' :: 'i' :: 'n' :: 'd' :: 'g' :: 'u' :: 'r' :: 'u' :: '.' :: 'c' :: 'z' ::
      '/' :: body) = some (body.takeWhile Char.isDigit) :=
  scanSpot_cons_some _ _ body (stripPre_append windguruKey body) h

/-- The scan fails exactly when no key-then-digit occurrence exists. -/
theorem scanSpot_none_iff : ∀ cs, scanSpot cs = none ↔ hasSpotKey cs = false := by
  intro cs
  induction cs with
  | nil => constructor <;> intro _ <;> rfl
  | cons c cs ih =>
    cases hk : stripPre windguruKey (c :: cs) with
    | none =>
      rw [scanSpot_cons_none c cs hk]
      simpa [hasSpotKey, hk] using ih
    | some rest =>
      cases rest with
      | nil => simpa [scanSpot, hasSpotKey, hk] using ih
      | cons d rest2 =>
        by_cases hd : d.isDigit = true
        · simp [scanSpot, hasSpotKey, hk, hd, List.takeWhile_cons]
        · have hd2 : d.isDigit = false := by simpa using hd
          simpa [scanSpot, hasSpotKey, hk, hd2, List.takeWhile_cons] using ih

/-- C4 (counterexample): matching the spec URL pattern is not necessary for
success: the schemeless string `windguru.cz/99` does not match the pattern
yet `extractSpotId` accepts it. -/
theorem C4_counterexample :
    specUrlMatch "windguru.cz/99" = none ∧
    extractSpotId "windguru.cz/99" = Except.ok "99" := ⟨rfl, rfl⟩

/-- C4 (amended): every URL matching the spec pattern yields exactly its
numeric segment, but the converse direction of the claim fails: the code
merely searches for `windguru.cz/` followed by a digit anywhere in the
string, so it fails with the malformed-URL error exactly when no such
occurrence exists; any such failure leaves the cache untouched and performs
no fetch. -/
theorem C4_amended :
    (∀ url ds, specUrlMatch url = some ds → extractSpotId url = Except.ok ds) ∧
    (∀ url, (∃ e, extractSpotId url = Except.error e) ↔ hasSpotKey url.toList = false) ∧
    (∀ st now env url e, extractSpotId url = Except.error e →
      (scrapeSpot st now env url).cache = st ∧
      (scrapeSpot st now env url).axiosCalls = 0 ∧
      (scrapeSpot st now env url).pptrCalls = 0) := by
  refine ⟨?_, ?_, ?_⟩
  · intro url ds h
    unfold specUrlMatch at h
    split at h
    · cases h
    · rename_i afterScheme hs
      split at h
      · cases h
      · rename_i body hk
        split at h
        · cases h
        · rename_i hb
          have hne : (body.takeWhile Char.isDigit).isEmpty = false := by
            simpa using hb
          have hds : ds = String.mk (body.takeWhile Char.isDigit) := by
            split at h
            · injection h with h2
              exact h2.symm
            · injection h with h2
              exact h2.symm
            · cases h
          have hbody : stripWww afterScheme = windguruKey ++ body :=
            stripPre_eq_append _ _ _ hk
          have hafter : afterScheme = windguruKey ++ body ∨
              afterScheme = 'w' :: 'w' :: 'w' :: '.' :: (windguruKey ++ body) := by
            unfold stripWww at hbody
            cases hw : stripPre ['w', 'w', 'w', '.'] afterScheme with
            | none =>
              rw [hw] at hbody
              exact Or.inl hbody
            | some mid =>
              rw [hw] at hbody
              have hb2 : mid = windguruKey ++ body := hbody
              right
              rw [stripPre_eq_append _ _ _ hw, hb2]
              rfl
          have hscan : scanSpot url.toList = some (body.takeWhile Char.isDigit) := by
            unfold stripHttpScheme at hs
            cases hss : stripPre ['h', 't', 't', 'p', 's', ':', '/', '/'] url.toList with
            | some rest =>
              rw [hss] at hs
              injection hs with hs2
              have hurl := stripPre_eq_append _ _ _ hss
              rw [hs2] at hurl
              cases hafter with
              | inl ha =>
                rw [hurl, ha]
                rw [show (['h', 't', 't', 'p', 's', ':', '/', '/'] : List Char) ++
                  (windguruKey ++ body) = 'h' :: 't' :: 't' :: 'p' :: 's' :: ':' :: '/' ::
                  '/' :: ('w' :: 'i' :: 'n' :: 'd' :: 'g' :: 'u' :: 'r' :: 'u' :: '.' ::
                  'c' :: 'z' :: '/' :: body) from rfl]
                rw [scanSpot_https]
                exact scanSpot_key body hne
              | inr ha =>
                rw [hurl, ha]
                rw [show (['h', 't', 't', 'p', 's', ':', '/', '/'] : List Char) ++
                  ('w' :: 'w' :: 'w' :: '.' :: (windguruKey ++ body)) = 'h' :: 't' :: 't' ::
                  'p' :: 's' :: ':' :: '/' :: '/' :: ('w' :: 'w' :: 'w' :: '.' ::
                  ('w' :: 'i' :: 'n' :: 'd' :: 'g' :: 'u' :: 'r' :: 'u' :: '.' :: 'c' ::
                  'z' :: '/' :: body)) from rfl]
                rw [scanSpot_https, scanSpot_www]
                exact scanSpot_key body hne
            | none =>
              rw [hss] at hs
              have hurl := stripPre_eq_append _ _ _ hs
              cases hafter with
              | inl ha =>
                rw [hurl, ha]
                rw [show (['h', 't', 't', 'p', ':', '/', '/'] : List Char) ++
                  (windguruKey ++ body) = 'h' :: 't' :: 't' :: 'p' :: ':' :: '/' :: '/' ::
                  ('w' :: 'i' :: 'n' :: 'd' :: 'g' :: 'u' :: 'r' :: 'u' :: '.' :: 'c' ::
                  'z' :: '/' :: body) from rfl]
                rw [scanSpot_http]
                exact scanSpot_key body hne
              | inr ha =>
                rw [hurl, ha]
                rw [show (['h', 't', 't', 'p', ':', '/', '/'] : List Char) ++
                  ('w' :: 'w' :: 'w' :: '.' :: (windguruKey ++ body)) = 'h' :: 't' :: 't' ::
                  'p' :: ':' :: '/' :: '/' :: ('w' :: 'w' :: 'w' :: '.' ::
                  ('w' :: 'i' :: 'n' :: 'd' :: 'g' :: 'u' :: 'r' :: 'u' :: '.' :: 'c' ::
                  'z' :: '/' :: body)) from rfl]
                rw [scanSpot_http, scanSpot_www]
                exact scanSpot_key body hne
          unfold extractSpotId
          rw [hscan, hds]
  · intro url
    rw [← scanSpot_none_iff]
    unfold extractSpotId
    cases hs : scanSpot url.toList with
    | some l => simp
    | none => simp
  · intro st now env url e herr
    have hmsg : extractSpotId url = Except.error "Invalid Windguru URL format" := by
      unfold extractSpotId at herr ⊢
      cases hs : scanSpot url.toList with
      | some l =>
        rw [hs] at herr
        cases herr
      | none => rfl
    rw [scrapeSpot_malformed st now env url "Invalid Windguru URL format" hmsg]
    exact ⟨rfl, rfl, rfl⟩

/-- Closed witness for C4: a canonical URL is accepted with its numeric
segment, and a malformed URL fails without touching cache or network. -/
theorem C4_witness :
    extractSpotId "https://www.windguru.cz/12345" = Except.ok "12345" ∧
    (scrapeSpot emptyCache 0 envFail "nope").cache = emptyCache ∧
    (scrapeSpot emptyCache 0 envFail "nope").axiosCalls = 0 := by
  have h2 := C4_amended.2.2 emptyCache 0 envFail "nope"
    "Invalid Windguru URL format" rfl
  exact ⟨C4_amended.1 "https://www.windguru.cz/12345" "12345" rfl, h2.1, h2.2.1⟩

end Windguru
